import Mathlib

/-!
# Verification of the Smart Email Search app (`src/streamlit_app.py`)

Shallow embedding of the two pieces of logic in the repository:

* the row filter built inline in the main script (variables `mask` and
  `results_df`, lines 202-229), and
* the summarizer adapter `summarize_text` (lines 129-154), together with the
  load-time input checks (file size ceiling, lines 166-168, and the mandatory
  `body` column, lines 177-179).

Modelling conventions:

* A Python `str` is modelled as a Lean `String`; Python `len` and slicing act
  on code points, modelled through `List Char` (`pyLen`, `pySlice`).
* A pandas cell is `Option String`: `none` is a missing value (`NaN`), and
  `some s` is the string coercion (`astype(str)`) of a present value.
  `astype(str)` maps `NaN` to the string "nan", modelled by `pyStr`.
* `Series.str.contains(frag, case=False, na=False)` applies `frag` as a
  case-insensitive regular expression (`regex=True` is the pandas default).
  `containsCI` models this regex search on the subset of patterns made of
  literal characters and the `.` metacharacter (Python `.` matches any
  character except a newline); a metacharacter-free pattern matches exactly
  its literal case-insensitive occurrences (`litContainsCI`, the
  containment notion the spec describes, is proved to coincide with
  `containsCI` on `regexFree` fragments).  Patterns using further regex
  syntax — quantifiers, classes, or invalid patterns, on which the program
  raises `re.error` out of the filter — are outside the modelled domain
  (the fallback arm of `containsCI`), and every theorem touching match
  semantics restricts its fragment to `regexFree`.
  ASCII case folding is used, as all concrete inputs here are ASCII.
* The external model and tokenizer are black boxes that may fail: each of
  their operations returns `Except String _`, an `Except.error` standing for
  a raised Python exception with its message.
-/

/-- Python `len` on a string: number of code points. -/
def pyLen (s : String) : Nat := s.toList.length

/-- Python slicing `s[:n]`: the first `n` code points. -/
def pySlice (n : Nat) (s : String) : String := String.mk (s.toList.take n)

/-- ASCII lower-casing of a string, as a character list
(Python `str.lower()` restricted to ASCII data). -/
def lowerChars (s : String) : List Char := s.toList.map Char.toLower

/-- The characters Python `re` treats as special in a pattern. -/
def regexMeta : List Char :=
  ['.', '^', '$', '*', '+', '?', '\x7b', '\x7d', '[', ']', '\\', '|',
    '(', ')']

/-- One atom of a parsed regex pattern in the modelled subset: a literal
character or the `.` metacharacter. -/
inductive RAtom where
  | lit (c : Char)
  | dot
deriving Repr, DecidableEq

/-- Parse a pattern made of literals and `.` only; any other metacharacter
puts the pattern outside the modelled subset (`none`). -/
def parseAtoms : List Char → Option (List RAtom)
  | [] => some []
  | c :: rest =>
    if c = '.' then (parseAtoms rest).map (fun as => RAtom.dot :: as)
    else if regexMeta.contains c then none
    else (parseAtoms rest).map (fun as => RAtom.lit c :: as)

/-- One atom against one character: a literal compares (both sides already
case-folded), `.` matches any character except a newline (Python `re.search`
without `re.DOTALL`). -/
def atomMatches : RAtom → Char → Bool
  | RAtom.lit c, x => c == x
  | RAtom.dot, x => x != '\n'

/-- The parsed pattern against a prefix of the text. -/
def matchesPrefix : List RAtom → List Char → Bool
  | [], _ => true
  | _ :: _, [] => false
  | a :: as, x :: xs => atomMatches a x && matchesPrefix as xs

/-- `Series.str.contains(needle, case=False)`: `re.search` of the fragment
as a case-insensitive regex — does the pattern match at some position of
`hay`?  Faithful on the subset of patterns made of literals and `.`;
patterns outside the subset (on which the program either applies richer
regex syntax or raises `re.error`) fall back to literal containment and are
excluded from every theorem by a `regexFree` hypothesis. -/
def containsCI (hay needle : String) : Bool :=
  match parseAtoms (lowerChars needle) with
  | some atoms => (lowerChars hay).tails.any (fun t => matchesPrefix atoms t)
  | none => (lowerChars hay).tails.any (fun t => (lowerChars needle).isPrefixOf t)

/-- Literal case-insensitive substring containment — the notion the spec
words describe ("contains f as a case-insensitive substring"), kept
separate from the program's regex semantics for comparison. -/
def litContainsCI (hay needle : String) : Bool :=
  (lowerChars hay).tails.any (fun t => (lowerChars needle).isPrefixOf t)

/-- The fragment contains no regex metacharacter (checked on the folded
characters; ASCII case folding maps no character onto a metacharacter). -/
def regexFree (f : String) : Bool :=
  (lowerChars f).all (fun c => !(regexMeta.contains c))

/-- `astype(str)` on one pandas cell: a present value keeps its string form,
a missing value (`NaN`) becomes the string "nan". -/
def pyStr : Option String → String
  | some s => s
  | none => "nan"

/-- One dataset row: the cells aligned positionally with the dataset columns,
`none` being a missing value (`NaN`). -/
abbrev Row := List (Option String)

/-- The tabular dataset loaded from the CSV: column names plus rows. -/
structure Dataset where
  cols : List String
  rows : List Row
deriving Repr, DecidableEq

/-- Cell lookup for column `c`: `none` when the column is absent from the
dataset, `some v` with `v` the (possibly missing) cell otherwise. -/
def getCell (cols : List String) (row : Row) (c : String) : Option (Option String) :=
  match cols.indexOf? c with
  | some i => some (row.getD i none)
  | none => none

/-- The four search inputs of the UI (`search_username`, `search_email`,
`search_dept`, `search_body`); the empty string is an untouched box, which
Python truthiness (`if search_username:`) treats as no constraint. -/
structure Queries where
  username : String
  email : String
  department : String
  body : String
deriving Repr, DecidableEq

/-- The query set with every box empty. -/
def emptyQueries : Queries := ⟨"", "", "", ""⟩

/-- The per-row predicate of one optional-column filter branch
(lines 207-223): inactive when the fragment is empty; vacuously true, with a
warning emitted elsewhere, when the dataset lacks the column; otherwise a
case-insensitive containment test against the string-coerced cell. -/
def fieldOk (cols : List String) (frag : String) (c : String) (row : Row) : Bool :=
  if frag = "" then true
  else
    match getCell cols row c with
    | none => true
    | some v => containsCI (pyStr v) frag

/-- The `body` filter branch (lines 225-226).  The source indexes
`df['body']` without a presence check; the app guarantees `body ∈ cols`
before filtering (lines 177-179), so the `none` default here is never
exercised by the program. -/
def bodyOk (cols : List String) (frag : String) (row : Row) : Bool :=
  if frag = "" then true
  else containsCI (pyStr ((getCell cols row "body").getD none)) frag

/-- The accumulated boolean `mask` of lines 204-226, evaluated at one row:
the conjunction of the four per-field predicates. -/
def maskRow (cols : List String) (q : Queries) (row : Row) : Bool :=
  fieldOk cols q.username "username" row
    && fieldOk cols q.email "email" row
    && fieldOk cols q.department "department" row
    && bodyOk cols q.body row

/-- `results_df = df[mask]` (line 229): the rows surviving the mask, in
their original order. -/
def results_df (df : Dataset) (q : Queries) : List Row :=
  df.rows.filter (maskRow df.cols q)

/-- The non-fatal warnings emitted while building the mask (lines 211, 217,
223), in emission order. -/
def maskWarnings (df : Dataset) (q : Queries) : List String :=
  (if q.username ≠ "" ∧ "username" ∉ df.cols then
    ["Column \x27username\x27 not found in CSV."] else [])
  ++ (if q.email ≠ "" ∧ "email" ∉ df.cols then
    ["Column \x27email\x27 not found in CSV."] else [])
  ++ (if q.department ≠ "" ∧ "department" ∉ df.cols then
    ["Column \x27department\x27 not found in CSV."] else [])

/-- The four searchable fields. -/
inductive QField
  | username
  | email
  | department
  | body
deriving Repr, DecidableEq

/-- The dataset column name a searchable field refers to. -/
def QField.colName : QField → String
  | .username => "username"
  | .email => "email"
  | .department => "department"
  | .body => "body"

/-- Read one search box. -/
def Queries.get (q : Queries) : QField → String
  | .username => q.username
  | .email => q.email
  | .department => q.department
  | .body => q.body

/-- Replace one search box. -/
def Queries.set (q : Queries) : QField → String → Queries
  | .username, f => { q with username := f }
  | .email, f => { q with email := f }
  | .department, f => { q with department := f }
  | .body, f => { q with body := f }

/-! ## The summarizer adapter -/

/-- The dict returned by calling the tokenizer; `summarize_text` only reads
its `input_ids` tensor (a batch of token-id sequences). -/
structure BatchEncoding where
  input_ids : List (List Nat)

/-- The fixed generation parameters of line 142-149 (beam search). -/
structure GenParams where
  max_length : Nat
  min_length : Nat
  length_penalty : ℚ
  num_beams : Nat
  early_stopping : Bool
deriving DecidableEq

/-- The parameter values `summarize_text` passes to `model.generate`. -/
def generationParams : GenParams :=
  { max_length := 130, min_length := 30, length_penalty := 2,
    num_beams := 4, early_stopping := true }

/-- The external tokenizer, a black box whose calls may raise: encoding
(called as `tokenizer(text, return_tensors="pt", max_length=1024,
truncation=True)`) and decoding (`tokenizer.decode(ids,
skip_special_tokens=True)`).  An `Except.error` is a raised exception
carrying its message. -/
structure Tokenizer where
  encode : String → Except String BatchEncoding
  decode : List Nat → Except String String

/-- The external seq2seq model, a black box whose `generate` call may
raise. -/
structure Model where
  generate : List (List Nat) → GenParams → Except String (List (List Nat))

/-- The `try:` block of `summarize_text` (lines 133-152): the too-short
short-circuit, then tokenize the first 1024 characters, generate, and decode
the first output sequence.  `summary_ids[0]` on an empty batch raises an
IndexError, modelled as an `Except.error` with CPython's message. -/
def summarizeBody (text : String) (model : Model) (tokenizer : Tokenizer) :
    Except String String :=
  if pyLen text < 50 then Except.ok "Email is too short to summarize."
  else do
    let inputs ← tokenizer.encode (pySlice 1024 text)
    let summary_ids ← model.generate inputs.input_ids generationParams
    match summary_ids.head? with
    | some ids0 => tokenizer.decode ids0
    | none => Except.error "list index out of range"

/-- `summarize_text(text, model, tokenizer)` (lines 129-154).  The handle
pair is `(None, None)` when `load_model_assets` failed (lines 125-127); the
guard of line 130 tests each component against `None`.  Any exception
escaping the `try:` block is caught and rendered as the
"Error during summarization: ..." string (line 154). -/
def summarize_text (text : String) (model : Option Model)
    (tokenizer : Option Tokenizer) : String :=
  match model, tokenizer with
  | some m, some t =>
    match summarizeBody text m t with
    | Except.ok s => s
    | Except.error e => "Error during summarization: " ++ e
  | _, _ => "Model not loaded."

/-! ## Load-time input checks -/

/-- `MAX_FILE_SIZE_MB` (line 8). -/
def MAX_FILE_SIZE_MB : Nat := 500

/-- `MAX_FILE_SIZE_BYTES` (line 9). -/
def MAX_FILE_SIZE_BYTES : Nat := MAX_FILE_SIZE_MB * 1024 * 1024

/-- An uploaded file: its byte size, and the dataset `pd.read_csv` would
produce from its contents (parsing itself is an external capability; the
load path below consults `parsed` only after the size check passes). -/
structure UploadedFile where
  size : Nat
  parsed : Dataset

/-- Python `str.strip()`: drop whitespace from both ends
(ASCII whitespace, which covers the column names considered here). -/
def pyStrip (l : List Char) : List Char :=
  ((l.dropWhile Char.isWhitespace).reverse.dropWhile Char.isWhitespace).reverse

/-- Column normalization of line 174: `c.strip().lower()` on every column
name (ASCII case folding, as above). -/
def normalizeCols (df : Dataset) : Dataset :=
  { df with
    cols := df.cols.map (fun c => String.mk ((pyStrip c.toList).map Char.toLower)) }

/-- Python `{x:.2f}` fixed-point rendering of `bytes / (1024*1024)`,
computed with exact rational rounding (round half to even, matching IEEE
float formatting on the sizes considered here). -/
def fmtMB2 (bytes : Nat) : String :=
  let n := bytes * 100
  let d := 1024 * 1024
  let q := n / d
  let r := n % d
  let rounded :=
    if 2 * r > d then q + 1
    else if 2 * r < d then q
    else if q % 2 = 0 then q else q + 1
  toString (rounded / 100) ++ "." ++
    (if rounded % 100 < 10 then "0" else "") ++ toString (rounded % 100)

/-- The oversize error message of line 167. -/
def tooLargeMsg (sizeBytes : Nat) : String :=
  "🚫 File is too large! Maximum size is " ++ toString MAX_FILE_SIZE_MB ++
    "MB. Your file is " ++ fmtMB2 sizeBytes ++ "MB."

/-- The missing-column error message of line 178. -/
def missingBodyMsg : String := "CSV must have a \x27body\x27 column."

/-- Outcome of the load path: a fatal error with its message (processing
stopped by `st.stop()`, no dataset produced), or the normalized dataset. -/
inductive LoadResult
  | fatal (msg : String)
  | loaded (df : Dataset)
deriving DecidableEq

/-- The load path of lines 164-179: size ceiling check before parsing, then
parse, normalize the column names, and require a `body` column. -/
def loadData (f : UploadedFile) : LoadResult :=
  if f.size > MAX_FILE_SIZE_BYTES then LoadResult.fatal (tooLargeMsg f.size)
  else
    let df := normalizeCols f.parsed
    if "body" ∈ df.cols then LoadResult.loaded df
    else LoadResult.fatal missingBodyMsg

/-! ## Helper lemmas -/

theorem getCell_eq_none_iff (cols : List String) (row : Row) (c : String) :
    getCell cols row c = none ↔ c ∉ cols := by
  unfold getCell
  cases hidx : cols.indexOf? c with
  | none =>
    simp only [true_iff]
    intro hc
    have := List.indexOf?_eq_none_iff.mp hidx c hc
    simp at this
  | some i =>
    simp only [reduceCtorEq, false_iff, not_not]
    by_contra hc
    rw [List.indexOf?_eq_none_iff.mpr (fun x hx => by simp; rintro rfl; exact hc hx)]
      at hidx
    exact Option.noConfusion hidx

theorem fieldOk_empty (cols : List String) (c : String) (row : Row) :
    fieldOk cols "" c row = true := by
  simp [fieldOk]

theorem bodyOk_empty (cols : List String) (row : Row) :
    bodyOk cols "" row = true := by
  simp [bodyOk]

theorem fieldOk_absent (cols : List String) (frag c : String) (row : Row)
    (h : getCell cols row c = none) : fieldOk cols frag c row = true := by
  unfold fieldOk
  rw [h]
  split <;> rfl

theorem maskRow_all_empty (cols : List String) (q : Queries) (row : Row)
    (hu : q.username = "") (he : q.email = "") (hd : q.department = "")
    (hb : q.body = "") : maskRow cols q row = true := by
  simp [maskRow, hu, he, hd, hb, fieldOk_empty, bodyOk_empty]

theorem maskRow_set_imp (cols : List String) (q : Queries) (c : QField)
    (f : String) (h0 : q.get c = "") (row : Row)
    (h : maskRow cols (q.set c f) row = true) : maskRow cols q row = true := by
  cases c <;>
    simp only [Queries.get] at h0 <;>
    simp only [maskRow, Queries.set, Bool.and_eq_true] at h ⊢ <;>
    rw [h0] <;>
    simp only [fieldOk_empty, bodyOk_empty] <;>
    tauto

/-- C10: for every dataset and every query set, the filtered result is a
subsequence of the input rows — original relative order kept, each surviving
row's cells unchanged, and no row introduced that was not in the input. -/
theorem results_df_sublist (df : Dataset) (q : Queries) :
    List.Sublist (results_df df q) df.rows :=
  List.filter_sublist df.rows

/-- C6: with every search box empty, the filter returns exactly the input
dataset: every row, in the original order. -/
theorem results_df_empty_queries (df : Dataset) (q : Queries)
    (hu : q.username = "") (he : q.email = "") (hd : q.department = "")
    (hb : q.body = "") : results_df df q = df.rows := by
  unfold results_df
  rw [List.filter_eq_self]
  intro row _
  exact maskRow_all_empty df.cols q row hu he hd hb

/-- Witness for C6 at a concrete dataset. -/
theorem results_df_empty_queries_witness :
    results_df ⟨["body"], [[some "a"], [none]]⟩ emptyQueries =
      [[some "a"], [none]] :=
  results_df_empty_queries ⟨["body"], [[some "a"], [none]]⟩ emptyQueries
    rfl rfl rfl rfl

/-- C7: filtering is monotonic — extending a query set with one additional
non-empty fragment (on a previously unconstrained field) only shrinks the
result set: it stays a subsequence, so it is a subset and never larger. -/
theorem results_df_monotone (df : Dataset) (q : Queries) (c : QField)
    (f : String) (h0 : q.get c = "") (hf : f ≠ "") :
    List.Sublist (results_df df (q.set c f)) (results_df df q) ∧
      (results_df df (q.set c f)).length ≤ (results_df df q).length := by
  have hsub : List.Sublist (results_df df (q.set c f)) (results_df df q) :=
    List.monotone_filter_right df.rows
      (fun row h => maskRow_set_imp df.cols q c f h0 row h)
  exact ⟨hsub, hsub.length_le⟩

/-- Witness for C7: adding the department fragment "sales" to the empty
query set over a two-row dataset. -/
theorem results_df_monotone_witness :
    List.Sublist
      (results_df ⟨["department", "body"],
        [[some "Sales", some "b1"], [some "HR", some "b2"]]⟩
        (emptyQueries.set QField.department "sales"))
      (results_df ⟨["department", "body"],
        [[some "Sales", some "b1"], [some "HR", some "b2"]]⟩ emptyQueries) ∧
    (results_df ⟨["department", "body"],
        [[some "Sales", some "b1"], [some "HR", some "b2"]]⟩
        (emptyQueries.set QField.department "sales")).length ≤
      (results_df ⟨["department", "body"],
        [[some "Sales", some "b1"], [some "HR", some "b2"]]⟩
        emptyQueries).length :=
  results_df_monotone _ emptyQueries QField.department "sales" rfl
    (by decide)

theorem parseAtoms_of_no_meta (l : List Char)
    (h : ∀ c ∈ l, regexMeta.contains c = false) :
    parseAtoms l = some (l.map RAtom.lit) := by
  induction l with
  | nil => rfl
  | cons c rest ih =>
    have hc : regexMeta.contains c = false := h c (List.mem_cons_self c rest)
    have hdot : ¬c = '.' := by
      intro hrfl
      rw [hrfl] at hc
      simp [regexMeta] at hc
    unfold parseAtoms
    rw [if_neg hdot, if_neg (by simpa using hc)]
    rw [ih (fun x hx => h x (List.mem_cons_of_mem c hx))]
    rfl

theorem matchesPrefix_map_lit (l : List Char) : ∀ t : List Char,
    matchesPrefix (l.map RAtom.lit) t = l.isPrefixOf t := by
  induction l with
  | nil => intro t; cases t <;> rfl
  | cons c cs ih =>
    intro t
    cases t with
    | nil => rfl
    | cons x xs => simp [matchesPrefix, atomMatches, List.isPrefixOf, ih]

theorem containsCI_regexFree (hay needle : String)
    (h : regexFree needle = true) :
    containsCI hay needle = litContainsCI hay needle := by
  have hl : ∀ c ∈ lowerChars needle, regexMeta.contains c = false := by
    intro c hc
    have := List.all_eq_true.mp h c hc
    simpa using this
  unfold containsCI litContainsCI
  rw [parseAtoms_of_no_meta _ hl]
  simp only [matchesPrefix_map_lit]

/-- C2 (amended): every surviving row satisfies each active fragment — for
every non-empty, regex-metacharacter-free fragment on field `c` (pandas
applies the fragment as a case-insensitive regex, so only such fragments
denote plain text searches), either the dataset lacks column `c`, or the
string-coerced cell (a missing value coercing to "nan", pandas
`astype(str)`) contains the fragment as a case-insensitive substring. -/
theorem results_df_sound (df : Dataset) (q : Queries) (r : Row)
    (hr : r ∈ results_df df q) (c : QField) (hf : q.get c ≠ "")
    (hlit : regexFree (q.get c) = true) :
    QField.colName c ∉ df.cols ∨
      litContainsCI (pyStr ((getCell df.cols r (QField.colName c)).getD none))
        (q.get c) = true := by
  obtain ⟨-, hmask⟩ := List.mem_filter.mp hr
  simp only [maskRow, Bool.and_eq_true] at hmask
  obtain ⟨⟨⟨hu, he⟩, hd⟩, hb⟩ := hmask
  cases c with
  | username =>
    simp only [Queries.get, QField.colName] at hf hlit ⊢
    unfold fieldOk at hu
    rw [if_neg hf] at hu
    cases hcell : getCell df.cols r "username" with
    | none => exact Or.inl ((getCell_eq_none_iff df.cols r "username").mp hcell)
    | some v =>
      rw [hcell] at hu
      refine Or.inr ?_
      rw [← containsCI_regexFree _ _ hlit]
      simpa using hu
  | email =>
    simp only [Queries.get, QField.colName] at hf hlit ⊢
    unfold fieldOk at he
    rw [if_neg hf] at he
    cases hcell : getCell df.cols r "email" with
    | none => exact Or.inl ((getCell_eq_none_iff df.cols r "email").mp hcell)
    | some v =>
      rw [hcell] at he
      refine Or.inr ?_
      rw [← containsCI_regexFree _ _ hlit]
      simpa using he
  | department =>
    simp only [Queries.get, QField.colName] at hf hlit ⊢
    unfold fieldOk at hd
    rw [if_neg hf] at hd
    cases hcell : getCell df.cols r "department" with
    | none => exact Or.inl ((getCell_eq_none_iff df.cols r "department").mp hcell)
    | some v =>
      rw [hcell] at hd
      refine Or.inr ?_
      rw [← containsCI_regexFree _ _ hlit]
      simpa using hd
  | body =>
    simp only [Queries.get, QField.colName] at hf hlit ⊢
    unfold bodyOk at hb
    rw [if_neg hf] at hb
    refine Or.inr ?_
    rw [← containsCI_regexFree _ _ hlit]
    exact hb

/-- Witness for C2 (amended) at a one-row dataset and the
metacharacter-free fragment "sales" on the department field. -/
theorem results_df_sound_witness :
    [some "Sales", some "the quarterly invoice is attached below"] ∈
      results_df
        ⟨["department", "body"],
          [[some "Sales", some "the quarterly invoice is attached below"]]⟩
        ⟨"", "", "sales", ""⟩ ∧
    regexFree "sales" = true ∧
    (QField.colName QField.department ∉
        (["department", "body"] : List String) ∨
      litContainsCI
        (pyStr ((getCell ["department", "body"]
          [some "Sales", some "the quarterly invoice is attached below"]
          (QField.colName QField.department)).getD none))
        ((⟨"", "", "sales", ""⟩ : Queries).get QField.department) = true) :=
  ⟨by decide, by decide,
    results_df_sound
      ⟨["department", "body"],
        [[some "Sales", some "the quarterly invoice is attached below"]]⟩
      ⟨"", "", "sales", ""⟩
      [some "Sales", some "the quarterly invoice is attached below"]
      (by decide) QField.department (by decide) (by decide)⟩

/-- C2 counterexample, two concrete divergences.  (1) A missing field
value does NOT coerce to the empty string — `astype(str)` renders `NaN` as
"nan" — so a row whose `username` cell is missing survives the non-empty
username fragment "nan": "never matches a non-empty fragment" is false on
the code.  (2) The fragment is applied as a regular expression, not a
literal: under the department fragment "." the program keeps the row whose
department value is "HR", which does not contain "." as a case-insensitive
substring — the containment conclusion is false on the code for
metacharacter fragments. -/
theorem missing_value_matches_fragment :
    (pyStr none ≠ "" ∧
      "username" ∈ (["username", "body"] : List String) ∧
      getCell ["username", "body"] [none, some "the body text of this email"]
        "username" = some none ∧
      (⟨"nan", "", "", ""⟩ : Queries).username ≠ "" ∧
      results_df
        ⟨["username", "body"], [[none, some "the body text of this email"]]⟩
        ⟨"nan", "", "", ""⟩ =
        [[none, some "the body text of this email"]]) ∧
    ((⟨"", "", ".", ""⟩ : Queries).department ≠ "" ∧
      "department" ∈ (["department", "body"] : List String) ∧
      litContainsCI "HR" "." = false ∧
      results_df
        ⟨["department", "body"], [[some "HR", some "the body text here"]]⟩
        ⟨"", "", ".", ""⟩ =
        [[some "HR", some "the body text here"]]) := by
  exact ⟨⟨by decide, by decide, by decide, by decide, by decide⟩,
    by decide, by decide, by decide, by decide⟩

theorem maskRow_set_absent (cols : List String) (q : Queries) (c : QField)
    (f : String) (row : Row) (hc : c ≠ QField.body)
    (habs : QField.colName c ∉ cols) :
    maskRow cols (q.set c f) row = maskRow cols q row := by
  have hcell : getCell cols row (QField.colName c) = none :=
    (getCell_eq_none_iff cols row _).mpr habs
  cases c with
  | username =>
    simp only [QField.colName] at hcell
    simp only [maskRow, Queries.set]
    rw [fieldOk_absent cols f "username" row hcell,
      fieldOk_absent cols q.username "username" row hcell]
  | email =>
    simp only [QField.colName] at hcell
    simp only [maskRow, Queries.set]
    rw [fieldOk_absent cols f "email" row hcell,
      fieldOk_absent cols q.email "email" row hcell]
  | department =>
    simp only [QField.colName] at hcell
    simp only [maskRow, Queries.set]
    rw [fieldOk_absent cols f "department" row hcell,
      fieldOk_absent cols q.department "department" row hcell]
  | body => exact absurd rfl hc

/-- The warning text of lines 211, 217, 223 for one searchable field. -/
def warnMsg (c : QField) : String :=
  "Column \x27" ++ QField.colName c ++ "\x27 not found in CSV."

/-- C5: querying an optional searchable column the dataset lacks emits a
non-fatal warning and leaves the constraint vacuously true: the fragment
excludes no row whatever the rest of the query set is, and with only that
fragment active the full dataset comes back. -/
theorem mask_missing_column_vacuous (df : Dataset) (c : QField) (f : String)
    (hc : c ≠ QField.body) (habs : QField.colName c ∉ df.cols) (hf : f ≠ "") :
    warnMsg c ∈ maskWarnings df (emptyQueries.set c f) ∧
      results_df df (emptyQueries.set c f) = df.rows ∧
      ∀ q : Queries, results_df df (q.set c f) = results_df df q := by
  have hvac : ∀ q : Queries, results_df df (q.set c f) = results_df df q := by
    intro q
    unfold results_df
    exact List.filter_congr
      (fun row _ => maskRow_set_absent df.cols q c f row hc habs)
  refine ⟨?_, ?_, hvac⟩
  · cases c with
    | username =>
      simp only [QField.colName] at habs
      simp [maskWarnings, Queries.set, emptyQueries, habs, hf]
      decide
    | email =>
      simp only [QField.colName] at habs
      simp [maskWarnings, Queries.set, emptyQueries, habs, hf]
      decide
    | department =>
      simp only [QField.colName] at habs
      simp [maskWarnings, Queries.set, emptyQueries, habs, hf]
      decide
    | body => exact absurd rfl hc
  · rw [hvac emptyQueries]
    exact results_df_empty_queries df emptyQueries rfl rfl rfl rfl

/-- Witness for C5: a dataset without a department column, queried with
department fragment "Sales". -/
theorem mask_missing_column_vacuous_witness :
    warnMsg QField.department ∈
      maskWarnings ⟨["body"], [[some "hello"], [some "world"]]⟩
        (emptyQueries.set QField.department "Sales") ∧
    results_df ⟨["body"], [[some "hello"], [some "world"]]⟩
      (emptyQueries.set QField.department "Sales") =
      [[some "hello"], [some "world"]] ∧
    results_df ⟨["body"], [[some "hello"], [some "world"]]⟩
      ((⟨"", "", "", "hello"⟩ : Queries).set QField.department "Sales") =
      results_df ⟨["body"], [[some "hello"], [some "world"]]⟩
        ⟨"", "", "", "hello"⟩ :=
  have h := mask_missing_column_vacuous
    ⟨["body"], [[some "hello"], [some "world"]]⟩ QField.department "Sales"
    (by decide) (by decide) (by decide)
  ⟨h.1, h.2.1, h.2.2 ⟨"", "", "", "hello"⟩⟩

/-- A concrete tokenizer whose calls succeed, for instantiating theorems. -/
def okTokenizer : Tokenizer :=
  ⟨fun _ => Except.ok ⟨[[0, 1]]⟩, fun _ => Except.ok "a generated summary"⟩

/-- A concrete model whose generate call succeeds. -/
def okModel : Model := ⟨fun _ _ => Except.ok [[2, 3]]⟩

/-- C1: `summarize_text` never lets a failure escape — for every text and
every model/tokenizer pair (a failed load included), the outcome is one of
the string results: the model-not-loaded message, the too-short sentinel,
a successfully decoded summary, or a caught failure rendered as the
"Error during summarization: ..." message. -/
theorem summarize_text_outcomes (text : String) (model : Option Model)
    (tokenizer : Option Tokenizer) :
    summarize_text text model tokenizer = "Model not loaded." ∨
    summarize_text text model tokenizer = "Email is too short to summarize." ∨
    (∃ m t s, model = some m ∧ tokenizer = some t ∧
      summarizeBody text m t = Except.ok s ∧
      summarize_text text model tokenizer = s) ∨
    (∃ e, summarize_text text model tokenizer =
      "Error during summarization: " ++ e) := by
  cases model with
  | none => left; cases tokenizer <;> rfl
  | some m =>
    cases tokenizer with
    | none => left; rfl
    | some t =>
      cases hb : summarizeBody text m t with
      | ok s =>
        right; right; left
        exact ⟨m, t, s, rfl, rfl, hb, by simp [summarize_text, hb]⟩
      | error e =>
        right; right; right
        exact ⟨e, by simp [summarize_text, hb]⟩

/-- C3: with a loaded model/tokenizer pair, any text shorter than 50
characters yields exactly the too-short sentinel, whatever the text's
content and whatever the model and tokenizer do (they are not invoked:
the result is the same for every pair). -/
theorem summarize_text_too_short (text : String) (m : Model) (t : Tokenizer)
    (h : pyLen text < 50) :
    summarize_text text (some m) (some t) =
      "Email is too short to summarize." := by
  simp [summarize_text, summarizeBody, if_pos h]

/-- Witness for C3 at a 3-character text and the concrete handles. -/
theorem summarize_text_too_short_witness :
    pyLen "hi!" < 50 ∧
    summarize_text "hi!" (some okModel) (some okTokenizer) =
      "Email is too short to summarize." :=
  ⟨by decide, summarize_text_too_short "hi!" okModel okTokenizer (by decide)⟩

/-- C9: when the handle pair records a failed load (model or tokenizer is
`None`), `summarize_text` returns "Model not loaded." for every text, texts
shorter than 50 characters included — the guard of line 130 runs before the
too-short check of line 134. -/
theorem summarize_text_model_missing (text : String) (model : Option Model)
    (tokenizer : Option Tokenizer) (h : model = none ∨ tokenizer = none) :
    summarize_text text model tokenizer = "Model not loaded." := by
  cases h with
  | inl hm => subst hm; cases tokenizer <;> rfl
  | inr ht => subst ht; cases model <;> rfl

/-- Witness for C9 at a text shorter than 50 characters and the fully
failed handle pair `(None, None)` returned by `load_model_assets`. -/
theorem summarize_text_model_missing_witness :
    ((none : Option Model) = none ∨ (none : Option Tokenizer) = none) ∧
    summarize_text "short text" none none = "Model not loaded." :=
  ⟨Or.inl rfl, summarize_text_model_missing "short text" none none
    (Or.inl rfl)⟩

/-- C4: for texts of at least 1024 characters, the outcome depends only on
the first 1024 characters: two such texts with the same 1024-character
prefix give the same result under the same handle pair (loaded or not). -/
theorem summarize_text_truncates (t1 t2 : String)
    (h1 : 1024 ≤ pyLen t1) (h2 : 1024 ≤ pyLen t2)
    (hpre : pySlice 1024 t1 = pySlice 1024 t2)
    (model : Option Model) (tokenizer : Option Tokenizer) :
    summarize_text t1 model tokenizer = summarize_text t2 model tokenizer := by
  have hbody : ∀ m t, summarizeBody t1 m t = summarizeBody t2 m t := by
    intro m t
    unfold summarizeBody
    rw [if_neg (by omega), if_neg (by omega), hpre]
  cases model with
  | none => cases tokenizer <;> rfl
  | some m =>
    cases tokenizer with
    | none => rfl
    | some t => simp [summarize_text, hbody m t]

/-- A concrete 1024-character text. -/
def longText1 : String := String.mk (List.replicate 1024 'a')

/-- The same 1024-character prefix followed by arbitrary extra content. -/
def longText2 : String :=
  String.mk (List.replicate 1024 'a' ++ " plus an arbitrary tail".toList)

set_option maxRecDepth 20000 in
/-- Witness for C4: two long texts agreeing on the first 1024 characters
and differing in the tail give the same outcome. -/
theorem summarize_text_truncates_witness :
    1024 ≤ pyLen longText1 ∧ 1024 ≤ pyLen longText2 ∧
    pySlice 1024 longText1 = pySlice 1024 longText2 ∧
    summarize_text longText1 (some okModel) (some okTokenizer) =
      summarize_text longText2 (some okModel) (some okTokenizer) :=
  ⟨by decide, by decide, by decide,
    summarize_text_truncates longText1 longText2 (by decide) (by decide)
      (by decide) (some okModel) (some okTokenizer)⟩

/-- C8: fatal input errors halt the load path with an explicit error and no
dataset.  An oversized file is rejected by its size alone — the parsed
contents are never consulted, so any file of the same size is rejected
identically — with a message naming both the 500 MB limit and the actual
size; a parsed dataset with no column normalizing to `body` stops with the
schema error before any filtering or summarization can receive a dataset. -/
theorem load_fatal_checks (f : UploadedFile) :
    (MAX_FILE_SIZE_BYTES < f.size →
      loadData f = LoadResult.fatal (tooLargeMsg f.size) ∧
      (∃ pre post, tooLargeMsg f.size =
        pre ++ toString MAX_FILE_SIZE_MB ++ "MB. Your file is " ++
          fmtMB2 f.size ++ post) ∧
      ∀ g : UploadedFile, g.size = f.size → loadData g = loadData f) ∧
    (f.size ≤ MAX_FILE_SIZE_BYTES → "body" ∉ (normalizeCols f.parsed).cols →
      loadData f = LoadResult.fatal missingBodyMsg) := by
  constructor
  · intro h
    refine ⟨by simp [loadData, h], ⟨"🚫 File is too large! Maximum size is ",
      "MB.", rfl⟩, ?_⟩
    intro g hg
    simp [loadData, h, hg]
  · intro h hb
    rw [loadData, if_neg (by omega), if_neg hb]

/-- Witness for C8: a 600 MB file is rejected with the oversize error, and
a small file whose parsed table has no `body` column is rejected with the
schema error. -/
theorem load_fatal_checks_witness :
    loadData ⟨600 * 1024 * 1024, ⟨["body"], []⟩⟩ =
      LoadResult.fatal (tooLargeMsg (600 * 1024 * 1024)) ∧
    loadData ⟨100, ⟨["Subject ", "Date"], [[some "s", some "d"]]⟩⟩ =
      LoadResult.fatal missingBodyMsg :=
  ⟨((load_fatal_checks ⟨600 * 1024 * 1024, ⟨["body"], []⟩⟩).1
      (by decide)).1,
    (load_fatal_checks ⟨100, ⟨["Subject ", "Date"], [[some "s", some "d"]]⟩⟩).2
      (by decide) (by decide)⟩
